import Mathlib

/-!
Verification of the `callsites` module (deno911/callsites,
`src/modules/callsites/mod.ts`) against its natural-language specification.

The module's only executable code is the function `callsites`
(mod.ts lines 192-198):

```
export function callsites(): CallSite[] {
  const _prepareStackTrace = (Error as any).prepareStackTrace;
  (Error as any).prepareStackTrace = (_: unknown, stack: CallSite) => stack;
  const stack = (new Error() as any).stack.slice(1);
  (Error as any).prepareStackTrace = _prepareStackTrace;
  return stack;
}
```

The `CallSite` interface (mod.ts lines 12-177) only declares the per-frame
query surface; the queries themselves, `CallSite.toString`, and the
documented `callsites(prepareStackTrace)` / `callsites.resolved()` entry
points are implemented by the V8 host or absent from `src/`, and are
modelled from the specification where a claim needs them (each such
definition carries a `Modelled from the spec:` doc comment).

The embedding is stateful-by-hand: the two process-wide slots that the code
reads and writes (`Error.prepareStackTrace` and `Error.stackTraceLimit`)
form an explicit `GlobalState` threaded through `callsites`, and the current
call chain at the `new Error()` site is an explicit parameter supplied by
the (modelled) host stack-trace facility.
-/

/-- A host (JavaScript) value, as far as this module observes one: the
`this` binding of a frame can be any value.  Objects and functions are
identified by an opaque id. -/
inductive JSValue where
  | undef
  | null
  | bool (b : Bool)
  | num (n : Int)
  | str (s : String)
  | obj (id : Nat)
  | fn (id : Nat)
deriving DecidableEq, Repr

/-- One stack frame, carrying the values of every zero-argument query the
`CallSite` interface (mod.ts lines 12-177) declares, in declaration order.
The interface exposes these lazily as methods; the shallow embedding records
the value each method returns on this frame.  `getThis` returns an arbitrary
host value; `getFunction` returns an opaque function reference, modelled by
its identity. -/
structure CallSite where
  getThis : JSValue
  getTypeName : Option String
  getFunction : Option Nat
  getFunctionName : Option String
  getMethodName : Option String
  getFileName : Option String
  getLineNumber : Option Nat
  getColumnNumber : Option Nat
  getEnclosingColumnNumber : Option Nat
  getEnclosingLineNumber : Option Nat
  getScriptNameOrSourceURL : Option String
  getScriptHash : Option String
  getPosition : Option Nat
  getEvalOrigin : Option String
  isToplevel : Bool
  isEval : Bool
  isNative : Bool
  isConstructor : Bool
  isAsync : Bool
  isPromiseAll : Bool
  getPromiseIndex : Option Nat
deriving DecidableEq, Repr

/-- A JavaScript `Error` object, as far as this code observes it: the code
constructs one (`new Error()`, line 195) and passes it to the formatting
hook, which ignores it.  A message field keeps the type non-trivial so that
independence from the error value is a real statement. -/
structure JSError where
  message : String
deriving DecidableEq, Repr

/-- Modelled from the spec: `CallSite.toString` (declared with its rendering
grammar at mod.ts lines 148-176, implemented by the V8 host, absent from
`src/`): renders `[TypeName.]MethodName (FileName:LineNumber:ColumnNumber)`,
omitting unavailable parts gracefully; the name part prefers the method
name, falling back to the function name. -/
def CallSite.toString (f : CallSite) : String :=
  let name :=
    match f.getMethodName with
    | some m => m
    | none =>
      match f.getFunctionName with
      | some n => n
      | none => ""
  let qualified :=
    match f.getTypeName with
    | some t => t ++ "." ++ name
    | none => name
  match f.getFileName, f.getLineNumber, f.getColumnNumber with
  | some file, some l, some c =>
      qualified ++ " (" ++ file ++ ":" ++ Nat.repr l ++ ":" ++ Nat.repr c ++ ")"
  | _, _, _ => qualified

/-- The two process-wide slots the code touches: `Error.prepareStackTrace`
(either absent, i.e. `undefined`, or an installed hook taking the error and
the frame array) and `Error.stackTraceLimit` (`none` models `Infinity`,
`some l` a finite limit of `l` frames). -/
structure GlobalState where
  prepareStackTrace : Option (JSError → List CallSite → List CallSite)
  stackTraceLimit : Option Nat

/-- The hook `callsites` installs (mod.ts line 194):
`(_: unknown, stack: CallSite) => stack` — it ignores the error argument
and returns the frame array unchanged. -/
def callsitesHook (_e : JSError) (stack : List CallSite) : List CallSite :=
  stack

/-- Modelled from the spec: the host stack-trace facility (spec §6, external
collaborator) materializes at most `stackTraceLimit` frames of the current
chain, silently truncating deeper frames; `none` (Infinity) keeps them
all. -/
def truncateChain (limit : Option Nat) (chain : List CallSite) : List CallSite :=
  match limit with
  | none => chain
  | some l => chain.take l

/-- Modelled from the spec: reading `error.stack` (the lazily-computed trace
property, spec §4.1 step 5) applies the installed formatting hook to the
error and the truncated current chain.  The `none` branch (no hook
installed) is unreachable inside `callsites`, which reads `.stack` only
right after installing its hook. -/
def errorStack (st : GlobalState) (e : JSError) (chain : List CallSite) :
    List CallSite :=
  match st.prepareStackTrace with
  | some hook => hook e (truncateChain st.stackTraceLimit chain)
  | none => []

/-- The global-state events a run of `callsites` can perform, one per
source statement that reads or writes a process-wide slot.  `setLimit` and
`restoreLimit` would mark writes to `Error.stackTraceLimit`; the code
contains no such statement, so no run emits them. -/
inductive TraceEvent where
  | saveHook
  | installHook
  | readStack
  | restoreHook
  | setLimit
  | restoreLimit
deriving DecidableEq, Repr

/-- Shallow embedding of `callsites` (mod.ts lines 192-198), instrumented
with the ordered list of global-state events the run performs.  `e` is the
`Error` the function constructs at line 195; `chain` is the current call
chain at that `new Error()` site as the host sees it, innermost frame first
(index 0 is the frame of `callsites` itself, per the V8 stack-trace API the
repository documents). -/
def callsitesInstr (e : JSError) (st : GlobalState) (chain : List CallSite) :
    List CallSite × GlobalState × List TraceEvent :=
  let saved := st.prepareStackTrace
  let st1 : GlobalState := { st with prepareStackTrace := some callsitesHook }
  let stack := (errorStack st1 e chain).drop 1
  let st2 : GlobalState := { st1 with prepareStackTrace := saved }
  (stack, st2, [TraceEvent.saveHook, TraceEvent.installHook,
    TraceEvent.readStack, TraceEvent.restoreHook])

/-- `callsites` proper: the returned array and the final global state
(the observable part of `callsitesInstr`). -/
def callsites (e : JSError) (st : GlobalState) (chain : List CallSite) :
    List CallSite × GlobalState :=
  ((callsitesInstr e st chain).1, (callsitesInstr e st chain).2.1)

/-- The event sequence every run of `callsites` performs: save the hook
(line 193), install the identity hook (line 194), read `.stack` — which
invokes the installed hook — (line 195), restore the saved hook
(line 196).  No event touches `Error.stackTraceLimit`. -/
def callsitesEvents : List TraceEvent :=
  [TraceEvent.saveHook, TraceEvent.installHook,
    TraceEvent.readStack, TraceEvent.restoreHook]

/-- The failure the specification prescribes for a non-callable formatter
argument. -/
inductive CaptureError where
  | invalidArgument
deriving DecidableEq, Repr

/-- Calling `callsites` with an argument.  The declared signature
(mod.ts line 192) takes no parameters, so by JavaScript call semantics any
supplied argument — callable or not — is ignored; the call proceeds exactly
as `callsites()` and never throws.  The result is wrapped in `Except` so
that the specification's failure mode is statable. -/
def callsitesCalledWith {α : Type} (_arg : α) (e : JSError) (st : GlobalState)
    (chain : List CallSite) : Except CaptureError (List CallSite) × GlobalState :=
  (Except.ok (callsites e st chain).1, (callsites e st chain).2)

/-- A concrete frame, distinguished by its line number and function name;
used for concrete evaluations. -/
def sampleFrame (tag : Nat) : CallSite :=
  ⟨JSValue.undef, none, none, some (Nat.repr tag), none, none, some tag, none,
    none, none, none, none, none, none, false, false, false, false, false,
    false, none⟩

/-- A concrete error value. -/
def sampleError : JSError := ⟨"sample"⟩

/-- A second concrete error value, distinct from `sampleError`. -/
def sampleError2 : JSError := ⟨"other"⟩

/-- `n` frames fit under the stack-trace limit `lim` (`none` = Infinity). -/
def withinLimit (lim : Option Nat) (n : Nat) : Bool :=
  match lim with
  | none => true
  | some l => n ≤ l

/-- Modelled from the spec: a Resolved Snapshot (spec §3, §4.2; the README's
`ResolvedCallSite`): every zero-argument query of the `CallSite` surface
evaluated once and collected into a plain record, the rendered string form
included.  Contains no callable members. -/
structure ResolvedCallSite where
  getThis : JSValue
  getTypeName : Option String
  getFunction : Option Nat
  getFunctionName : Option String
  getMethodName : Option String
  getFileName : Option String
  getLineNumber : Option Nat
  getColumnNumber : Option Nat
  getEnclosingColumnNumber : Option Nat
  getEnclosingLineNumber : Option Nat
  getScriptNameOrSourceURL : Option String
  getScriptHash : Option String
  getPosition : Option Nat
  getEvalOrigin : Option String
  isToplevel : Bool
  isEval : Bool
  isNative : Bool
  isConstructor : Bool
  isAsync : Bool
  isPromiseAll : Bool
  getPromiseIndex : Option Nat
  toString : String
deriving DecidableEq, Repr

/-- Modelled from the spec: the Snapshot Resolver's per-frame step
(spec §4.2): invoke every query once with the frame as receiver and collect
the results into a Resolved Snapshot. -/
def resolveCallSite (f : CallSite) : ResolvedCallSite :=
  ⟨f.getThis, f.getTypeName, f.getFunction, f.getFunctionName, f.getMethodName,
    f.getFileName, f.getLineNumber, f.getColumnNumber,
    f.getEnclosingColumnNumber, f.getEnclosingLineNumber,
    f.getScriptNameOrSourceURL, f.getScriptHash, f.getPosition,
    f.getEvalOrigin, f.isToplevel, f.isEval, f.isNative, f.isConstructor,
    f.isAsync, f.isPromiseAll, f.getPromiseIndex, f.toString⟩

/-- Modelled from the spec: `capture(formatter)` (spec §4.1).  The
formatter-accepting entry point is documented by the repository README
(`callsites(prepareStackTrace)`) but its implementation is absent from
`src/`; modelled from the spec's steps: raise the stack-depth limit to
unbounded (so nothing is truncated), save and install the hook, trigger the
capture, read the result `formatter (error, frames)` — `frames` being the
frame-descriptor sequence whose index 0 is the immediate caller of the
capture entry point — then restore the hook and the limit, and return the
formatter's result unmodified. -/
def captureWith {R : Type} (fmt : JSError → List CallSite → R) (e : JSError)
    (st : GlobalState) (chain : List CallSite) : R × GlobalState :=
  let savedHook := st.prepareStackTrace
  let savedLimit := st.stackTraceLimit
  let frames := (truncateChain none chain).drop 1
  (fmt e frames, { prepareStackTrace := savedHook, stackTraceLimit := savedLimit })

/-- Modelled from the spec: `callsites.resolved` / `captureResolved`
(spec §4.2; documented in the repository README, absent from `src/`):
invoke the capture engine with a formatter mapping every frame to its
resolved snapshot, and return the snapshots with the first entry removed —
the first frame corresponds to the resolver's own internal call into the
capture engine's formatter path and is dropped unconditionally. -/
def callsitesResolved (e : JSError) (st : GlobalState) (chain : List CallSite) :
    List ResolvedCallSite × GlobalState :=
  let r := captureWith (fun _e frames => frames.map resolveCallSite) e st chain
  (r.1.drop 1, r.2)

/-- The returned array of `callsites` is the installed hook's output with
its first element removed (line 195 applies `.slice(1)` to the value read
from `.stack`). -/
theorem callsites_fst (e : JSError) (st : GlobalState) (chain : List CallSite) :
    (callsites e st chain).1 = (truncateChain st.stackTraceLimit chain).drop 1 :=
  rfl

/-- C1: after every invocation of `callsites`, the process-wide formatting
hook (`Error.prepareStackTrace`) and the process-wide stack-depth limit
(`Error.stackTraceLimit`) both equal their pre-call values.  The only hook
the code installs is its internal identity arrow, which cannot throw, so
every exit path is a normal return and is covered by this universally
quantified statement. -/
theorem callsites_restores_global_state (e : JSError) (st : GlobalState)
    (chain : List CallSite) :
    ((callsites e st chain).2.prepareStackTrace = st.prepareStackTrace) ∧
    ((callsites e st chain).2.stackTraceLimit = st.stackTraceLimit) :=
  ⟨rfl, rfl⟩

/-- C2 (code evaluated at the failing input): `callsites` declares no
formatter parameter, so a supplied pure formatter returning `[]` is ignored
by JavaScript call semantics: the call returns the sliced frame array
`[sampleFrame 1]`, not the formatter's result `[]`. -/
theorem callsites_ignores_formatter_argument :
    ((callsitesCalledWith
        (fun (_ : JSError) (_ : List CallSite) => ([] : List CallSite))
        sampleError ⟨none, none⟩ [sampleFrame 0, sampleFrame 1]).1
      = Except.ok [sampleFrame 1]) ∧
    (([sampleFrame 1] : List CallSite) ≠ []) :=
  ⟨rfl, by decide⟩

/-- C3 counterexample: with the stack-depth limit at its default of 10 and
11 enclosing calls, `callsites` returns 9 frames, not 11 (the code never
raises the limit); and at depth 2 with the limit unbounded the first
returned frame is the immediate caller (the innermost enclosing call), not
the outermost one, refuting the claimed outermost-to-innermost order. -/
theorem callsites_depth_order_counterexample :
    ((((callsites sampleError ⟨none, some 10⟩
          (List.map sampleFrame (List.range 12))).1).length = 9) ∧
      ((9 : Nat) ≠ 11)) ∧
    (((callsites sampleError ⟨none, none⟩
          [sampleFrame 0, sampleFrame 1, sampleFrame 2]).1.get? 0
        = some (sampleFrame 1)) ∧
      (sampleFrame 1 ≠ sampleFrame 2)) :=
  ⟨⟨by decide, by decide⟩, ⟨rfl, by decide⟩⟩

/-- C3 (amended): for every depth N ≥ 1, if N + 1 frames fit under the
current stack-trace limit, `callsites` invoked on the chain consisting of
its own frame followed by the N enclosing frames (innermost first) returns
exactly those N enclosing frames, order preserved — so index 0 is the
immediate caller and the order is innermost-to-outermost. -/
theorem callsites_returns_enclosing_frames (e : JSError) (st : GlobalState)
    (csFrame : CallSite) (enclosing : List CallSite)
    (h1 : 1 ≤ enclosing.length)
    (h2 : withinLimit st.stackTraceLimit (enclosing.length + 1) = true) :
    (callsites e st (csFrame :: enclosing)).1 = enclosing := by
  rw [callsites_fst]
  cases hl : st.stackTraceLimit with
  | none => simp [truncateChain]
  | some l =>
      have hle : (csFrame :: enclosing).length ≤ l := by
        have : enclosing.length + 1 ≤ l := by
          have h2' := h2
          rw [hl] at h2'
          simpa [withinLimit] using h2'
        simpa using this
      simp [truncateChain, List.take_of_length_le hle]

/-- Witness for `callsites_returns_enclosing_frames` at depth 2 with
limit 10. -/
theorem callsites_returns_enclosing_frames_witness :
    (1 ≤ ([sampleFrame 1, sampleFrame 2] : List CallSite).length) ∧
    (withinLimit (some 10)
        (([sampleFrame 1, sampleFrame 2] : List CallSite).length + 1) = true) ∧
    ((callsites sampleError ⟨none, some 10⟩
        (sampleFrame 0 :: [sampleFrame 1, sampleFrame 2])).1
      = [sampleFrame 1, sampleFrame 2]) :=
  ⟨by decide, by decide,
    callsites_returns_enclosing_frames sampleError ⟨none, some 10⟩
      (sampleFrame 0) [sampleFrame 1, sampleFrame 2] (by decide) (by decide)⟩

/-- C4: the resolver returns exactly one fewer snapshot than the capture
that feeds it (a direct capture at the resolver's internal call site, same
chain and state), and snapshot i is the eager evaluation of frame i + 1's
full query set, preserving the relative order. -/
theorem callsitesResolved_one_fewer (e : JSError) (st : GlobalState)
    (chain : List CallSite)
    (h : 1 ≤ ((captureWith (fun _e fs => fs) e st chain).1).length) :
    (((callsitesResolved e st chain).1).length + 1
        = ((captureWith (fun _e fs => fs) e st chain).1).length) ∧
    ∀ i, ((callsitesResolved e st chain).1).get? i
        = (((captureWith (fun _e fs => fs) e st chain).1).get? (i + 1)).map
            resolveCallSite := by
  have hres : (callsitesResolved e st chain).1
      = ((chain.drop 1).map resolveCallSite).drop 1 := rfl
  have hcap : (captureWith (fun _e fs => fs) e st chain).1 = chain.drop 1 := rfl
  constructor
  · rw [hres, hcap, List.length_drop, List.length_map]
    exact Nat.sub_add_cancel (by rw [hcap] at h; exact h)
  · intro i
    rw [hres, hcap, List.get?_drop, List.get?_map, Nat.add_comm]

/-- Witness for `callsitesResolved_one_fewer` on a 3-frame chain. -/
theorem callsitesResolved_one_fewer_witness :
    (1 ≤ ((captureWith (fun _e fs => fs) sampleError ⟨none, none⟩
        [sampleFrame 0, sampleFrame 1, sampleFrame 2]).1).length) ∧
    ((((callsitesResolved sampleError ⟨none, none⟩
          [sampleFrame 0, sampleFrame 1, sampleFrame 2]).1).length + 1
        = ((captureWith (fun _e fs => fs) sampleError ⟨none, none⟩
            [sampleFrame 0, sampleFrame 1, sampleFrame 2]).1).length) ∧
      ∀ i, ((callsitesResolved sampleError ⟨none, none⟩
            [sampleFrame 0, sampleFrame 1, sampleFrame 2]).1).get? i
          = (((captureWith (fun _e fs => fs) sampleError ⟨none, none⟩
              [sampleFrame 0, sampleFrame 1, sampleFrame 2]).1).get? (i + 1)).map
              resolveCallSite) :=
  ⟨by decide,
    callsitesResolved_one_fewer sampleError ⟨none, none⟩
      [sampleFrame 0, sampleFrame 1, sampleFrame 2] (by decide)⟩

/-- C5 counterexample: supplying the non-callable value `"not a function"`
does not fail with `InvalidArgument`: the argument is ignored and the call
returns the frame array normally. -/
theorem callsites_noncallable_no_invalidArgument :
    ((callsitesCalledWith (JSValue.str "not a function") sampleError
        ⟨none, none⟩ [sampleFrame 0, sampleFrame 1]).1
      = Except.ok [sampleFrame 1]) ∧
    ((Except.ok [sampleFrame 1] : Except CaptureError (List CallSite))
      ≠ Except.error CaptureError.invalidArgument) :=
  ⟨rfl, fun h => Except.noConfusion h⟩

/-- C5 (amended): any argument supplied to `callsites` — callable or not —
is ignored: the call returns the frame array normally (never an
`InvalidArgument` failure), and the formatting hook and the stack-depth
limit equal their pre-call values after the call. -/
theorem callsites_argument_ignored_state_unchanged {α : Type} (arg : α)
    (e : JSError) (st : GlobalState) (chain : List CallSite) :
    ((callsitesCalledWith arg e st chain).1
        = Except.ok (callsites e st chain).1) ∧
    ((callsitesCalledWith arg e st chain).2.prepareStackTrace
        = st.prepareStackTrace) ∧
    ((callsitesCalledWith arg e st chain).2.stackTraceLimit
        = st.stackTraceLimit) :=
  ⟨rfl, rfl, rfl⟩

/-- C6 counterexample: with the stack-depth limit at 2 and a chain of 3
frames, `callsites` returns a single frame — one frame of the enclosing
chain was silently truncated (2 were expected) — and no run ever emits a
set-limit event. -/
theorem callsites_limit_not_raised_counterexample :
    ((callsites sampleError ⟨none, some 2⟩
        [sampleFrame 0, sampleFrame 1, sampleFrame 2]).1 = [sampleFrame 1]) ∧
    (([sampleFrame 1] : List CallSite).length
      ≠ ([sampleFrame 0, sampleFrame 1, sampleFrame 2] : List CallSite).length - 1) ∧
    (TraceEvent.setLimit ∉ (callsitesInstr sampleError ⟨none, some 2⟩
        [sampleFrame 0, sampleFrame 1, sampleFrame 2]).2.2) :=
  ⟨rfl, by decide, by decide⟩

/-- C6 (amended): `callsites` never touches the stack-depth limit: its event
sequence contains no set-limit event, the limit after the call equals the
pre-call value, and the trace capture runs under the pre-existing limit, so
the returned array has `min(limit, depth) - 1` entries — frames beyond the
limit are silently truncated. -/
theorem callsites_limit_untouched (e : JSError) (st : GlobalState)
    (chain : List CallSite) :
    ((callsitesInstr e st chain).2.2 = callsitesEvents) ∧
    (TraceEvent.setLimit ∉ callsitesEvents) ∧
    ((callsites e st chain).2.stackTraceLimit = st.stackTraceLimit) ∧
    ((callsites e st chain).1.length
        = (truncateChain st.stackTraceLimit chain).length - 1) := by
  refine ⟨rfl, by decide, rfl, ?_⟩
  rw [callsites_fst, List.length_drop]

/-- C7 counterexample: the event sequence of a concrete run contains no
limit-restoration event at all, so there are no indices placing a
limit restoration after the hook restoration. -/
theorem callsites_no_limit_restore_event :
    ((callsitesInstr sampleError ⟨none, some 10⟩
        [sampleFrame 0, sampleFrame 1]).2.2 = callsitesEvents) ∧
    (¬ ∃ i j k : Nat, i < j ∧ j < k ∧
        callsitesEvents.get? i = some TraceEvent.readStack ∧
        callsitesEvents.get? j = some TraceEvent.restoreHook ∧
        callsitesEvents.get? k = some TraceEvent.restoreLimit) := by
  refine ⟨rfl, ?_⟩
  rintro ⟨i, j, k, -, -, -, -, hk⟩
  have hmem : TraceEvent.restoreLimit ∈ callsitesEvents := List.get?_mem hk
  revert hmem
  decide

/-- C7 (amended): in every run of `callsites` the trace-property read —
the step that invokes the installed hook — happens strictly before the hook
is restored (event indices 2 and 3); the stack-depth limit is never
modified, so no limit-restoration step exists. -/
theorem callsites_reads_stack_before_restoring_hook (e : JSError)
    (st : GlobalState) (chain : List CallSite) :
    ((callsitesInstr e st chain).2.2 = callsitesEvents) ∧
    (callsitesEvents.get? 2 = some TraceEvent.readStack) ∧
    (callsitesEvents.get? 3 = some TraceEvent.restoreHook) ∧
    ((2 : Nat) < 3) ∧
    (TraceEvent.restoreLimit ∉ callsitesEvents) :=
  ⟨rfl, rfl, rfl, by decide, by decide⟩

/-- C8: the string form of a frame follows the grammar
`[TypeName.]MethodName (FileName:Line:Column)`: with receiver type name,
method name and full source position available the rendering is
`TypeName.MethodName (FileName:Line:Column)`, and without a type name the
`TypeName.` prefix is omitted. -/
theorem toString_grammar :
    (∀ (f : CallSite) (t m file : String) (l c : Nat),
      f.getTypeName = some t → f.getMethodName = some m →
      f.getFileName = some file → f.getLineNumber = some l →
      f.getColumnNumber = some c →
      f.toString = t ++ "." ++ m ++ " (" ++ file ++ ":" ++ Nat.repr l ++ ":"
        ++ Nat.repr c ++ ")") ∧
    (∀ (f : CallSite) (m file : String) (l c : Nat),
      f.getTypeName = none → f.getMethodName = some m →
      f.getFileName = some file → f.getLineNumber = some l →
      f.getColumnNumber = some c →
      f.toString = m ++ " (" ++ file ++ ":" ++ Nat.repr l ++ ":"
        ++ Nat.repr c ++ ")") := by
  constructor
  · intro f t m file l c h1 h2 h3 h4 h5
    simp [CallSite.toString, h1, h2, h3, h4, h5]
  · intro f m file l c h1 h2 h3 h4 h5
    simp [CallSite.toString, h1, h2, h3, h4, h5]

/-- The frame with type name `Bar` and method `foo` at `app.ts:10:5`. -/
def barFooFrame : CallSite :=
  ⟨JSValue.undef, some "Bar", none, none, some "foo", some "app.ts", some 10,
    some 5, none, none, none, none, none, none, false, false, false, false,
    false, false, none⟩

/-- As `barFooFrame` but with no receiver type name. -/
def fooFrame : CallSite :=
  ⟨JSValue.undef, none, none, none, some "foo", some "app.ts", some 10,
    some 5, none, none, none, none, none, none, false, false, false, false,
    false, false, none⟩

/-- Witness for `toString_grammar` on the spec's two concrete frames. -/
theorem toString_grammar_witness :
    (barFooFrame.toString = "Bar.foo (app.ts:10:5)") ∧
    (fooFrame.toString = "foo (app.ts:10:5)") :=
  ⟨toString_grammar.1 barFooFrame "Bar" "foo" "app.ts" 10 5
      rfl rfl rfl rfl rfl,
    toString_grammar.2 fooFrame "foo" "app.ts" 10 5 rfl rfl rfl rfl rfl⟩

/-- C9: the hook `callsites` installs is independent of its error argument
and is the identity on the frame array, and consequently two runs of
`callsites` differing only in the constructed error value produce identical
results and final states. -/
theorem callsitesHook_identity_error_independent :
    (∀ (e : JSError) (s : List CallSite), callsitesHook e s = s) ∧
    (∀ (e1 e2 : JSError) (s : List CallSite),
        callsitesHook e1 s = callsitesHook e2 s) ∧
    (∀ (e1 e2 : JSError) (st : GlobalState) (chain : List CallSite),
        callsites e1 st chain = callsites e2 st chain) :=
  ⟨fun _ _ => rfl, fun _ _ _ => rfl, fun _ _ _ _ => rfl⟩

/-- C10: the array `callsites` returns is the installed hook's output with
exactly its first element removed: one fewer element, and element i of the
result is element i + 1 of the hook-produced stack. -/
theorem callsites_drops_first_hook_frame (e : JSError) (st : GlobalState)
    (chain : List CallSite)
    (h : 1 ≤ (callsitesHook e (truncateChain st.stackTraceLimit chain)).length) :
    (((callsites e st chain).1).length + 1
        = (callsitesHook e (truncateChain st.stackTraceLimit chain)).length) ∧
    ∀ i, ((callsites e st chain).1).get? i
        = (callsitesHook e (truncateChain st.stackTraceLimit chain)).get? (i + 1) := by
  constructor
  · rw [callsites_fst, List.length_drop]
    exact Nat.sub_add_cancel (by simpa [callsitesHook] using h)
  · intro i
    rw [callsites_fst]
    have hd := List.get?_drop (truncateChain st.stackTraceLimit chain) 1 i
    simpa [callsitesHook, Nat.add_comm] using hd

/-- Witness for `callsites_drops_first_hook_frame` on a 2-frame chain. -/
theorem callsites_drops_first_hook_frame_witness :
    (1 ≤ (callsitesHook sampleError
        (truncateChain none [sampleFrame 0, sampleFrame 1])).length) ∧
    ((((callsites sampleError ⟨none, none⟩
          [sampleFrame 0, sampleFrame 1]).1).length + 1
        = (callsitesHook sampleError
            (truncateChain none [sampleFrame 0, sampleFrame 1])).length) ∧
      ∀ i, ((callsites sampleError ⟨none, none⟩
            [sampleFrame 0, sampleFrame 1]).1).get? i
          = (callsitesHook sampleError
              (truncateChain none [sampleFrame 0, sampleFrame 1])).get? (i + 1)) :=
  ⟨by decide,
    callsites_drops_first_hook_frame sampleError ⟨none, none⟩
      [sampleFrame 0, sampleFrame 1] (by decide)⟩
